import Mathlib

/-!
Shallow embedding of the rug-detection scoring core of the repository:

* feature engineering — `ml/train_ultimate_2025.py` (`engineer_features`) and
  `ml/predict.py` (`engineer_features_for_prediction`);
* the rule-based fallback scorer and the 4-band risk table — `ml/predict.py`;
* the ensemble prediction path, the 5-band risk table, the confidence
  calculation and risk-factor extraction — `ml/predict_ultimate.py`;
* the stacked-ensemble training loop: fold handling, the meta-feature
  matrix, and the persistence of fold models — `ml/train_ultimate_2025.py`.

Numeric fields are modelled as rationals.  The two feature transforms
treat a zero denominator differently and are modelled accordingly: the
training-time transform divides pandas Series, yielding inf or NaN that
the immediately following `replace([inf, -inf], 0).fillna(0)` turns into
0 — modelled by rational division, which is 0 at a zero denominator —
whereas the serving-time transform divides plain Python scalars before
any DataFrame exists, raising ZeroDivisionError at a zero denominator —
modelled by `engineer_features_serving` returning an error there, with
`engineer_features_for_prediction` giving the assembled vector on the
non-raising inputs.  Trained third-party models (XGBoost, LightGBM,
CatBoost, the neural net, the meta learner) are opaque capability
providers in the spec and are modelled as abstract prediction functions.
-/

/-- Raw token metrics as passed to the predictors.  Every field is optional,
mirroring `features.get(key, default)` dictionary access in the source;
`none` is an absent key (or a JSON `null` for the authority fields). -/
structure RawTokenFeatures where
  mint_authority : Option String := none
  freeze_authority : Option String := none
  lp_burned : Option ℚ := none
  total_supply : Option ℚ := none
  honeypot : Option Bool := none
  buy_tax : Option ℚ := none
  sell_tax : Option ℚ := none
  holders : Option ℚ := none
  holders_after_filter : Option ℚ := none
  top10_pct : Option ℚ := none
  sniper_wallets_pct : Option ℚ := none
  dev_bought_pct : Option ℚ := none
  jito_bundle_clusters : Option ℚ := none
  market_cap : Option ℚ := none
  liquidity : Option ℚ := none
  slippage_10k : Option ℚ := none
  vol_5m : Option ℚ := none
  vol_1m : Option ℚ := none
  price_change_5m : Option ℚ := none
  kde_floor : Option ℚ := none
  avg_buy_price : Option ℚ := none
  hours_post_migration : Option ℚ := none
  jito_bundle : Option Bool := none
  gnn_cluster_prob : Option ℚ := none
  -- key read only by `_get_risk_factors` in predict_ultimate.py (line 251);
  -- distinct from `jito_bundle_clusters`
  bundled_clusters : Option ℚ := none
deriving DecidableEq

/-- The vector assembled by `engineer_features_for_prediction`
(ml/predict.py lines 19-53) on the inputs where none of its plain-Python
scalar divisions (lines 31, 40, 42) raises, in column order: mint_revoked,
freeze_revoked, lp_burned_pct, honeypot, tax_buy, tax_sell, real_holders,
top10_concentration, sniper_pct, dev_buy_pct, bundled_clusters,
mc_to_liq_ratio, slippage_10k, volume_velocity_5m, price_change_5m,
buy_density_kde_peak, avg_buy_price, hours_since_migration,
jito_bundle_detected, cluster_risk_score.  The faithful serving-time entry
point, including the ZeroDivisionError raised at a zero denominator, is
`engineer_features_serving` below.  `ml/predict_ultimate.py` lines 99-125
(`UltimateEnsemble.engineer_features`) is the identical transform. -/
def engineer_features_for_prediction (f : RawTokenFeatures) : List ℚ :=
  [ if f.mint_authority.isNone then 1 else 0,
    if f.freeze_authority.isNone then 1 else 0,
    f.lp_burned.getD 0 / (f.total_supply.getD 1 + 1),
    if f.honeypot.getD false then 1 else 0,
    f.buy_tax.getD 0,
    f.sell_tax.getD 0,
    f.holders_after_filter.getD (f.holders.getD 0),
    f.top10_pct.getD 0,
    f.sniper_wallets_pct.getD 0,
    f.dev_bought_pct.getD 0,
    f.jito_bundle_clusters.getD 0,
    f.market_cap.getD 0 / (f.liquidity.getD 1 + 1),
    f.slippage_10k.getD 0,
    f.vol_5m.getD 0 / (f.vol_1m.getD 1 + 1),
    f.price_change_5m.getD 0,
    f.kde_floor.getD 0,
    f.avg_buy_price.getD 0,
    f.hours_post_migration.getD 0,
    if f.jito_bundle.getD false then 1 else 0,
    f.gnn_cluster_prob.getD 0 ]

/-- `engineer_features_for_prediction` as actually called at serving time:
its divisions at ml/predict.py lines 31, 40 and 42 are plain Python scalar
arithmetic evaluated before the DataFrame is built, so a zero denominator
(the raw field equal to -1 under the +1 protection) raises
ZeroDivisionError in dict-literal order rather than producing an inf for
line 52 to sanitise; on non-raising inputs every entry is finite and the
`replace`/`fillna` step is the identity, giving
`engineer_features_for_prediction f`. -/
def engineer_features_serving (f : RawTokenFeatures) : Except String (List ℚ) :=
  if f.total_supply.getD 1 + 1 = 0 then
    .error "ZeroDivisionError: division by zero"
  else if f.liquidity.getD 1 + 1 = 0 then
    .error "ZeroDivisionError: division by zero"
  else if f.vol_1m.getD 1 + 1 = 0 then
    .error "ZeroDivisionError: division by zero"
  else
    .ok (engineer_features_for_prediction f)

/-- `engineer_features` (ml/train_ultimate_2025.py lines 163-189), applied
to a one-row dataset holding the given raw features.  Same formulas and
column order as the serving transform, except: when the `honeypot` (resp.
`jito_bundle`) column is absent, `df.get('honeypot', 0)` yields the plain
integer `0`, and the immediately following `.astype(int)` raises an
`AttributeError` — modelled as `Except.error`.  (When the column is
present, `.isna()` / `.astype(int)` agree with the serving transform.)
Its divisions are pandas Series divisions: a zero denominator yields
inf or NaN, which line 188's `replace([inf, -inf], 0).fillna(0)`
turns into 0 — hence rational division (0 at a zero denominator) is the
faithful model here, unlike on the serving side. -/
def engineer_features (f : RawTokenFeatures) : Except String (List ℚ) :=
  if f.honeypot.isNone then
    .error "AttributeError: astype on scalar default of honeypot"
  else if f.jito_bundle.isNone then
    .error "AttributeError: astype on scalar default of jito_bundle"
  else
    .ok [ if f.mint_authority.isNone then 1 else 0,
          if f.freeze_authority.isNone then 1 else 0,
          f.lp_burned.getD 0 / (f.total_supply.getD 1 + 1),
          if f.honeypot.getD false then 1 else 0,
          f.buy_tax.getD 0,
          f.sell_tax.getD 0,
          f.holders_after_filter.getD (f.holders.getD 0),
          f.top10_pct.getD 0,
          f.sniper_wallets_pct.getD 0,
          f.dev_bought_pct.getD 0,
          f.jito_bundle_clusters.getD 0,
          f.market_cap.getD 0 / (f.liquidity.getD 1 + 1),
          f.slippage_10k.getD 0,
          f.vol_5m.getD 0 / (f.vol_1m.getD 1 + 1),
          f.price_change_5m.getD 0,
          f.kde_floor.getD 0,
          f.avg_buy_price.getD 0,
          f.hours_post_migration.getD 0,
          if f.jito_bundle.getD false then 1 else 0,
          f.gnn_cluster_prob.getD 0 ]

/-- Python `int()` applied to a nonnegative-or-negative float/rational:
truncation toward zero.  Used at `score = int((1 - rug_prob) * 100)`
(ml/predict.py line 78, ml/predict_ultimate.py line 186). -/
def pyInt (q : ℚ) : ℤ :=
  if 0 ≤ q then ⌊q⌋ else -⌊-q⌋

/-- Python `round()` to an integer: round half to even (banker's rounding). -/
def pyRound (q : ℚ) : ℤ :=
  let fl := ⌊q⌋
  let frac := q - fl
  if frac < 1/2 then fl
  else if 1/2 < frac then fl + 1
  else if fl % 2 = 0 then fl else fl + 1

/-- Python `round(x, 3)`: round half to even at the third decimal place
(ml/predict_ultimate.py line 231). -/
def pyRound3 (q : ℚ) : ℚ :=
  (pyRound (q * 1000) : ℚ) / 1000

/-- Risk-level mapping of ml/predict.py lines 113-120 (also lines 81-88):
the 4-band table of the basic / fallback path. -/
def level4 (score : ℤ) : String :=
  if score ≥ 90 then "LOW"
  else if score ≥ 70 then "MEDIUM"
  else if score ≥ 40 then "HIGH"
  else "EXTREME"

/-- Risk-level mapping of ml/predict_ultimate.py lines 188-198: the 5-band
table of the ensemble path. -/
def level5 (score : ℤ) : String :=
  if score ≥ 95 then "EXTREME LOW"
  else if score ≥ 90 then "LOW"
  else if score ≥ 70 then "MEDIUM"
  else if score ≥ 40 then "HIGH"
  else "EXTREME"

/-- `features.get('mint_authority') is not None` (ml/predict.py line 97). -/
def mintNotRevoked (f : RawTokenFeatures) : Bool :=
  f.mint_authority.isSome

/-- `features.get('freeze_authority') is not None` (ml/predict.py line 99). -/
def freezeNotRevoked (f : RawTokenFeatures) : Bool :=
  f.freeze_authority.isSome

/-- `features.get('honeypot', False)` (ml/predict.py line 101). -/
def honeypotFlag (f : RawTokenFeatures) : Bool :=
  f.honeypot.getD false

/-- `features.get('buy_tax', 0) > 5 or features.get('sell_tax', 0) > 5`
(ml/predict.py line 103). -/
def highTax (f : RawTokenFeatures) : Bool :=
  decide (f.buy_tax.getD 0 > 5) || decide (f.sell_tax.getD 0 > 5)

/-- `features.get('top10_pct', 0) > 50` (ml/predict.py line 105). -/
def highConcentration (f : RawTokenFeatures) : Bool :=
  decide (f.top10_pct.getD 0 > 50)

/-- `features.get('lp_burned', 0) < features.get('total_supply', 1) * 0.9`
(ml/predict.py line 107). -/
def lowLpBurn90 (f : RawTokenFeatures) : Bool :=
  decide (f.lp_burned.getD 0 < f.total_supply.getD 1 * (9/10))

/-- `features.get('buy_tax', 0) > 5` (ml/predict.py line 142). -/
def highBuyTax (f : RawTokenFeatures) : Bool :=
  decide (f.buy_tax.getD 0 > 5)

/-- `features.get('sell_tax', 0) > 5` (ml/predict.py line 144). -/
def highSellTax (f : RawTokenFeatures) : Bool :=
  decide (f.sell_tax.getD 0 > 5)

/-- `features.get('jito_bundle_clusters', 0) > 3` (ml/predict.py line 148,
ml/predict_ultimate.py line 247). -/
def manyJitoBundles (f : RawTokenFeatures) : Bool :=
  decide (f.jito_bundle_clusters.getD 0 > 3)

/-- `features.get('lp_burned', 0) < features.get('total_supply', 1) * 0.5`
(ml/predict.py line 150). -/
def lowLpBurn50 (f : RawTokenFeatures) : Bool :=
  decide (f.lp_burned.getD 0 < f.total_supply.getD 1 * (1/2))

/-- `features.get('dev_bought_pct', 0) > 10` (ml/predict_ultimate.py line
249). -/
def highDevBuy (f : RawTokenFeatures) : Bool :=
  decide (f.dev_bought_pct.getD 0 > 10)

/-- `features.get('bundled_clusters', 0) > 5` (ml/predict_ultimate.py line
251). -/
def manyWalletClusters (f : RawTokenFeatures) : Bool :=
  decide (f.bundled_clusters.getD 0 > 5)

/-- The score accumulation of `fallback_scoring` (ml/predict.py lines
94-110): start at 100, deduct per red flag in source order, clamp with
`max(0, min(100, score))`. -/
def fallbackRawScore (f : RawTokenFeatures) : ℤ :=
  let s0 : ℤ := 100
  let s1 := if mintNotRevoked f then s0 - 20 else s0
  let s2 := if freezeNotRevoked f then s1 - 20 else s1
  let s3 := if honeypotFlag f then s2 - 30 else s2
  let s4 := if highTax f then s3 - 15 else s3
  let s5 := if highConcentration f then s4 - 10 else s4
  let s6 := if lowLpBurn90 f then s5 - 10 else s5
  max 0 (min 100 s6)

/-- `fallback_scoring` (ml/predict.py lines 92-122): rule-based scorer used
when the ML model is unavailable.  Returns (score, risk_level,
rug_probability), with `rug_prob = 1 - (score / 100)` (line 111) and the
4-band level table (lines 113-120). -/
def fallback_scoring (f : RawTokenFeatures) : ℤ × String × ℚ :=
  let score := fallbackRawScore f
  (score, level4 score, 1 - (score : ℚ) / 100)

/-- `predict_rug_score` (ml/predict.py lines 55-90).  The module-level
XGBoost model (loaded from disk at import, `None` if the artifact is
missing) is passed explicitly as an opaque probability predictor over the
engineered feature vector.  The model branch is modelled on the inputs
where `engineer_features_serving` does not raise (on a raising input the
source propagates the ZeroDivisionError to the CLI error handler); the
`None` branch never engineers features. -/
def predict_rug_score (model : Option (List ℚ → ℚ))
    (f : RawTokenFeatures) : ℤ × String × ℚ :=
  match model with
  | none => fallback_scoring f
  | some m =>
    let rug_prob := m (engineer_features_for_prediction f)
    let score := pyInt ((1 - rug_prob) * 100)
    (score, level4 score, rug_prob)

/-- Rendering of a rational into a risk-factor string.  Abstracts Python's
numeric string formatting (the exact digits are irrelevant to the claims;
the value itself is carried). -/
def fmtQ (q : ℚ) : String :=
  toString q.num ++ "/" ++ toString q.den

/-- `get_risk_factors` (ml/predict.py lines 124-153): the sequence of
`risks.append` calls guarded by the source's conditions, then
`risks[:5]`.  The `rug_prob` argument is accepted, as in the source
signature (line 124). -/
def get_risk_factors (f : RawTokenFeatures) (rug_prob : ℚ) : List String :=
  ((if mintNotRevoked f then ["Mint authority not revoked"] else []) ++
   (if freezeNotRevoked f then ["Freeze authority not revoked"] else []) ++
   (if honeypotFlag f then ["Honeypot detected"] else []) ++
   (if highBuyTax f then
      ["High buy tax: " ++ fmtQ (f.buy_tax.getD 0) ++ "%"] else []) ++
   (if highSellTax f then
      ["High sell tax: " ++ fmtQ (f.sell_tax.getD 0) ++ "%"] else []) ++
   (if highConcentration f then
      ["High concentration: Top 10 hold " ++ fmtQ (f.top10_pct.getD 0) ++ "%"] else []) ++
   (if manyJitoBundles f then
      ["Multiple Jito bundles detected: " ++ fmtQ (f.jito_bundle_clusters.getD 0)] else []) ++
   (if lowLpBurn50 f then
      ["Low LP burn percentage"] else [])).take 5

/-- `UltimateEnsemble._get_risk_factors` (ml/predict_ultimate.py lines
233-254): same append-then-truncate shape with the ensemble path's rule
set. -/
def get_risk_factors_u (f : RawTokenFeatures) : List String :=
  ((if mintNotRevoked f then ["Mint authority not revoked"] else []) ++
   (if freezeNotRevoked f then ["Freeze authority not revoked"] else []) ++
   (if honeypotFlag f then ["Honeypot detected"] else []) ++
   (if highTax f then
      ["High taxes: " ++ fmtQ (f.buy_tax.getD 0) ++ "%/" ++ fmtQ (f.sell_tax.getD 0) ++ "%"] else []) ++
   (if highConcentration f then
      ["High concentration: Top 10 hold " ++ fmtQ (f.top10_pct.getD 0) ++ "%"] else []) ++
   (if manyJitoBundles f then
      ["Multiple Jito bundles: " ++ fmtQ (f.jito_bundle_clusters.getD 0)] else []) ++
   (if highDevBuy f then
      ["High dev buy: " ++ fmtQ (f.dev_bought_pct.getD 0) ++ "%"] else []) ++
   (if manyWalletClusters f then
      ["Wallet clusters detected: " ++ fmtQ (f.bundled_clusters.getD 0)] else [])).take 5

/-- `UltimateEnsemble._calculate_confidence` (ml/predict_ultimate.py lines
215-231). -/
def calculate_confidence (f : RawTokenFeatures) (rug_prob : ℚ) : ℚ :=
  let c0 : ℚ := 1
  let c1 := if f.holders.getD 0 = 0 then c0 * (8/10) else c0
  let c2 := if f.liquidity.getD 0 = 0 then c1 * (8/10) else c1
  let c3 := if f.hours_post_migration.getD 0 < 1/20 then c2 * (9/10) else c2
  let c4 := if rug_prob > 9/10 ∨ rug_prob < 1/10 then min 1 (c3 * (11/10)) else c3
  pyRound3 c4

/-- Result record of `UltimateEnsemble.predict` / `predict_full`
(ml/predict_ultimate.py lines 170-213 and 283-295). -/
structure PredResult where
  score : ℤ
  level : String
  rug_probability : ℚ
  confidence : ℚ
  model_used : String
  risk_factors : List String
deriving DecidableEq

/-- `UltimateEnsemble.predict` (ml/predict_ultimate.py lines 170-213).
`pp` models `self.predict_proba`, the tier-selection over the loaded
models, returning (rug_probability, model_used). -/
def ensemble_predict (pp : RawTokenFeatures → ℚ × String)
    (f : RawTokenFeatures) : PredResult :=
  let r := pp f
  let score := pyInt ((1 - r.1) * 100)
  { score := score
    level := level5 score
    rug_probability := r.1
    confidence := calculate_confidence f r.1
    model_used := r.2
    risk_factors := get_risk_factors_u f }

/-- The fixed record returned by `predict_full` when the module-level
`ensemble` is `None` (ml/predict_ultimate.py lines 285-293), i.e. when
`UltimateEnsemble()` raised because not a single model artifact loaded. -/
def sentinelResult : PredResult :=
  { score := 50
    level := "UNKNOWN"
    rug_probability := 1/2
    confidence := 0
    model_used := "None"
    risk_factors := ["No model available"] }

/-- `predict_full` (ml/predict_ultimate.py lines 283-295).  The global
`ensemble` (None when no artifact of any tier loaded) is passed
explicitly. -/
def predict_full (ens : Option (RawTokenFeatures → ℚ × String))
    (f : RawTokenFeatures) : PredResult :=
  match ens with
  | none => sentinelResult
  | some pp => ensemble_predict pp f

/-- `np.mean` of a list of probabilities (ml/predict_ultimate.py lines
142-143 and 151). -/
def mean (l : List ℚ) : ℚ :=
  l.sum / (l.length : ℚ)

/-- State of the fitted-classifier objects during the training loop of
`main` (ml/train_ultimate_2025.py lines 276-327), modelling Python object
identity.  A fitted classifier's state is abstracted to the list of row
indices it was last `fit` on; `heap` is the object heap (index = object
id), `xgbRefs` and `nnRefs` are the object ids appended to
`meta_models['xgb']` and `meta_models['nn']` (the `lgb` and `cat` lists
behave exactly like `xgb`: one pre-loop object refit in place each fold). -/
structure TrainLoopState where
  heap : List (List ℕ)
  xgbRefs : List ℕ
  nnRefs : List ℕ
deriving DecidableEq

/-- Heap before the fold loop: object 0 is the single `base_models['xgb']`
classifier constructed at lines 243-273, not yet fitted. -/
def initTrainLoopState : TrainLoopState :=
  { heap := [[]], xgbRefs := [], nnRefs := [] }

/-- One iteration of the fold loop (lines 281-327) restricted to model
fitting and persistence: `base_models['xgb'].fit(X_train, y_train)` refits
object 0 in place (line 288); `train_swiglu_net` constructs a fresh neural
net fitted on the fold's training rows (line 315); line 324 appends a
reference to object 0 to `meta_models['xgb']`, line 327 appends the fresh
net. -/
def trainFoldStep (st : TrainLoopState) (trainRows : List ℕ) : TrainLoopState :=
  let heap1 := st.heap.set 0 trainRows
  { heap := heap1 ++ [trainRows]
    xgbRefs := st.xgbRefs ++ [0]
    nnRefs := st.nnRefs ++ [heap1.length] }

/-- The whole fold loop, given each fold's training-row indices. -/
def runTrainingLoop (foldTrains : List (List ℕ)) : TrainLoopState :=
  foldTrains.foldl trainFoldStep initTrainLoopState

/-- `joblib.dump(meta_models, 'fold_models.pkl')` (line 369): each stored
reference is serialised with the object state it points to at dump time. -/
def persistedModels (st : TrainLoopState) (refs : List ℕ) : List (List ℕ) :=
  refs.map (fun i => st.heap.getD i [])

/-- The per-fold training-row index lists of a 5-fold split of 5 rows
(fold f validates on row f and trains on the other four): the smallest
concrete instance exercising the fold loop. -/
def demoFoldTrains : List (List ℕ) :=
  [[1, 2, 3, 4], [0, 2, 3, 4], [0, 1, 3, 4], [0, 1, 2, 4], [0, 1, 2, 3]]

/-- One fold of the cross-validation split: held-out validation rows and
the complementary training rows. -/
structure Fold (n : ℕ) where
  train : List (Fin n)
  val : List (Fin n)

/-- Rank of row `i` among the rows of its own class (label `y i`), in row
order.  Used to model the stratified splitter. -/
def classRank {n : ℕ} (y : Fin n → Bool) (i : Fin n) : ℕ :=
  ((List.finRange n).filter (fun j => decide (y j = y i ∧ j < i))).length

/-- Validation rows of fold `f`: a stratified splitter deals the rows of
each class round-robin over the `k` folds. -/
def valIdx (n : ℕ) (k : ℕ) (y : Fin n → Bool) (f : ℕ) : List (Fin n) :=
  (List.finRange n).filter (fun i => decide (classRank y i % k = f))

/-- Training rows of fold `f`: the complement of `valIdx n k y f`. -/
def trainIdx (n : ℕ) (k : ℕ) (y : Fin n → Bool) (f : ℕ) : List (Fin n) :=
  (List.finRange n).filter (fun i => decide (classRank y i % k ≠ f))

/-- Modelled from the library contract of
`StratifiedKFold(n_splits=k, shuffle=True, random_state=42).split(X, y)`
(ml/train_ultimate_2025.py line 276): `k` folds whose validation index
sets partition the rows, each fold preserving the class ratio, training
rows being the complement of the validation rows.  The seeded shuffle only
permutes which concrete partition is produced; this model realises the
contract with a deterministic round-robin deal per class. -/
def stratifiedFolds (n k : ℕ) (y : Fin n → Bool) : List (Fold n) :=
  (List.range k).map (fun f => ⟨trainIdx n k y f, valIdx n k y f⟩)

/-- The meta-feature matrix build of `main` (ml/train_ultimate_2025.py
lines 277-319): starting from `np.zeros((len(X), 4))`, each fold writes,
at its validation row indices, column `j`'s cell with the probability
predicted for that row by base-learner type `j` fitted on the fold's
training rows (`pred j trainRows i` abstracts `fit` on the training rows
followed by `predict_proba` on row `i`). -/
def buildMetaFeatures {n : ℕ} (folds : List (Fold n))
    (pred : Fin 4 → List (Fin n) → Fin n → ℚ) : Fin n → Fin 4 → ℚ :=
  folds.foldl
    (fun M fd => fun i j => if i ∈ fd.val then pred j fd.train i else M i j)
    (fun _ _ => 0)

/-- The deduction table of spec section 4.5, in the stated order and
magnitude: a (trigger, points) row per red flag. -/
def fallbackDeductions (f : RawTokenFeatures) : List (Bool × ℤ) :=
  [ (mintNotRevoked f, 20),
    (freezeNotRevoked f, 20),
    (honeypotFlag f, 30),
    (highTax f, 15),
    (highConcentration f, 10),
    (lowLpBurn90 f, 10) ]

/-- Spec-form fallback score: 100 minus the sum of the triggered
deductions, clamped to [0, 100]. -/
def fallbackScoreSpec (f : RawTokenFeatures) : ℤ :=
  max 0 (min 100
    (100 - ((fallbackDeductions f).map (fun d => if d.1 then d.2 else 0)).sum))

/-- First-match threshold lookup realising a risk-band table as the spec
lists it: the first row whose threshold the score reaches gives the
label, otherwise the default band. -/
def bandLookup (table : List (ℤ × String)) (dflt : String) (s : ℤ) : String :=
  match table with
  | [] => dflt
  | (t, l) :: rest => if s ≥ t then l else bandLookup rest dflt s

/-- The 5-band table of spec 4.4 step 4 (stacked-ensemble path). -/
def band5Table : List (ℤ × String) :=
  [(95, "EXTREME LOW"), (90, "LOW"), (70, "MEDIUM"), (40, "HIGH")]

/-- The 4-band table of spec 4.4 step 4 (basic / fallback path). -/
def band4Table : List (ℤ × String) :=
  [(90, "LOW"), (70, "MEDIUM"), (40, "HIGH")]

/-- Spec-form confidence (spec 4.4 step 5): a product of data-quality
factors, then the extreme-probability boost capped at 1, then rounding to
3 decimal places. -/
def confidenceSpec (f : RawTokenFeatures) (p : ℚ) : ℚ :=
  let base : ℚ :=
    1 * (if f.holders.getD 0 = 0 then 8/10 else 1)
      * (if f.liquidity.getD 0 = 0 then 8/10 else 1)
      * (if f.hours_post_migration.getD 0 < 1/20 then 9/10 else 1)
  pyRound3 (if p > 9/10 ∨ p < 1/10 then min 1 (base * (11/10)) else base)

/-- The fixed, ordered rule list behind `get_risk_factors` (ml/predict.py),
as (predicate, templated message) rows in source order. -/
def riskRules (f : RawTokenFeatures) : List (Bool × String) :=
  [ (mintNotRevoked f, "Mint authority not revoked"),
    (freezeNotRevoked f, "Freeze authority not revoked"),
    (honeypotFlag f, "Honeypot detected"),
    (highBuyTax f, "High buy tax: " ++ fmtQ (f.buy_tax.getD 0) ++ "%"),
    (highSellTax f, "High sell tax: " ++ fmtQ (f.sell_tax.getD 0) ++ "%"),
    (highConcentration f,
      "High concentration: Top 10 hold " ++ fmtQ (f.top10_pct.getD 0) ++ "%"),
    (manyJitoBundles f,
      "Multiple Jito bundles detected: " ++ fmtQ (f.jito_bundle_clusters.getD 0)),
    (lowLpBurn50 f, "Low LP burn percentage") ]

/-- The fixed, ordered rule list behind `_get_risk_factors`
(ml/predict_ultimate.py), in source order. -/
def riskRulesU (f : RawTokenFeatures) : List (Bool × String) :=
  [ (mintNotRevoked f, "Mint authority not revoked"),
    (freezeNotRevoked f, "Freeze authority not revoked"),
    (honeypotFlag f, "Honeypot detected"),
    (highTax f,
      "High taxes: " ++ fmtQ (f.buy_tax.getD 0) ++ "%/" ++ fmtQ (f.sell_tax.getD 0) ++ "%"),
    (highConcentration f,
      "High concentration: Top 10 hold " ++ fmtQ (f.top10_pct.getD 0) ++ "%"),
    (manyJitoBundles f,
      "Multiple Jito bundles: " ++ fmtQ (f.jito_bundle_clusters.getD 0)),
    (highDevBuy f, "High dev buy: " ++ fmtQ (f.dev_bought_pct.getD 0) ++ "%"),
    (manyWalletClusters f,
      "Wallet clusters detected: " ++ fmtQ (f.bundled_clusters.getD 0)) ]

/-- Evaluate an ordered rule list as the spec describes: each true
predicate contributes its templated message, and the result is truncated
to the first 5 matches in rule order. -/
def firstFiveRisks (rules : List (Bool × String)) : List String :=
  (rules.filterMap (fun r => if r.1 then some r.2 else none)).take 5

/-- Claim input: both authorities still set (not revoked), honeypot false,
taxes 0, top-10 concentration 15, burned liquidity exactly 0.9 of total
supply. -/
def exAuthoritiesSet : RawTokenFeatures :=
  { mint_authority := some "5xoTpBcUZKrcJBB6a3Nw4rmYWjwqvLSDFNNBYwDsFdM1"
    freeze_authority := some "5xoTpBcUZKrcJBB6a3Nw4rmYWjwqvLSDFNNBYwDsFdM1"
    honeypot := some false
    buy_tax := some 0
    sell_tax := some 0
    top10_pct := some 15
    lp_burned := some 900000000
    total_supply := some 1000000000 }

/-- Same input with both authorities revoked (None). -/
def exAuthoritiesRevoked : RawTokenFeatures :=
  { exAuthoritiesSet with mint_authority := none, freeze_authority := none }

/-- The all-defaults input: an empty feature dictionary. -/
def exEmpty : RawTokenFeatures := {}

/-- Low-data-quality input of the confidence example: holders and
liquidity reported as 0, token 9 minutes past migration. -/
def exLowQuality : RawTokenFeatures :=
  { holders := some 0, liquidity := some 0, hours_post_migration := some (3/20) }

lemma fallbackRawScore_eq_spec (f : RawTokenFeatures) :
    fallbackRawScore f = fallbackScoreSpec f := by
  unfold fallbackRawScore fallbackScoreSpec fallbackDeductions
  cases h1 : mintNotRevoked f <;> cases h2 : freezeNotRevoked f <;>
    cases h3 : honeypotFlag f <;> cases h4 : highTax f <;>
    cases h5 : highConcentration f <;> cases h6 : lowLpBurn90 f <;> decide

/-- Claim C5: the rule-based fallback scorer starts at 100 and applies
exactly the six deductions (-20 mint authority not revoked, -20 freeze
authority not revoked, -30 honeypot, -15 buy or sell tax above 5, -10
top-10 concentration above 50, -10 burned liquidity below 90 percent of
total supply) in this order, clamps to [0, 100], sets rugProbability =
1 - score/100 and applies the 4-band level table; with both authorities
set and all else benign it returns (60, HIGH), with both authorities
revoked it returns (100, LOW). -/
theorem fallback_scoring_rules (f : RawTokenFeatures) :
    fallback_scoring f =
      (fallbackScoreSpec f, level4 (fallbackScoreSpec f),
        1 - (fallbackScoreSpec f : ℚ) / 100) ∧
    fallback_scoring exAuthoritiesSet = (60, "HIGH", 2/5) ∧
    fallback_scoring exAuthoritiesRevoked = (100, "LOW", 0) := by
  refine ⟨?_, ?_, ?_⟩
  · unfold fallback_scoring
    rw [fallbackRawScore_eq_spec]
  · norm_num [fallback_scoring, fallbackRawScore, mintNotRevoked, freezeNotRevoked,
      honeypotFlag, highTax, highConcentration, lowLpBurn90, exAuthoritiesSet,
      level4, max_def, min_def]
  · norm_num [fallback_scoring, fallbackRawScore, mintNotRevoked, freezeNotRevoked,
      honeypotFlag, highTax, highConcentration, lowLpBurn90, exAuthoritiesRevoked,
      exAuthoritiesSet, level4, max_def, min_def]

/-- Claim C8: for scores in [0, 100] the ensemble path's level function
realises the 5-band table (95 EXTREME LOW / 90 LOW / 70 MEDIUM / 40 HIGH /
else EXTREME) and the basic/fallback path's level function the 4-band
table (90 LOW / 70 MEDIUM / 40 HIGH / else EXTREME), with the boundary
scores 95, 90, 70, 40 and every score below 40 mapped to the documented
band of each table. -/
theorem risk_level_tables (s : ℤ) (h0 : 0 ≤ s) (h1 : s ≤ 100) :
    level5 s = bandLookup band5Table "EXTREME" s ∧
    level4 s = bandLookup band4Table "EXTREME" s ∧
    (s < 40 → level5 s = "EXTREME" ∧ level4 s = "EXTREME") ∧
    level5 95 = "EXTREME LOW" ∧ level5 90 = "LOW" ∧ level5 70 = "MEDIUM" ∧
    level5 40 = "HIGH" ∧
    level4 95 = "LOW" ∧ level4 90 = "LOW" ∧ level4 70 = "MEDIUM" ∧
    level4 40 = "HIGH" := by
  refine ⟨?_, ?_, ?_, by decide, by decide, by decide, by decide,
    by decide, by decide, by decide, by decide⟩
  · simp [level5, bandLookup, band5Table]
  · simp [level4, bandLookup, band4Table]
  · intro hs
    constructor
    · unfold level5
      rw [if_neg (by omega), if_neg (by omega), if_neg (by omega), if_neg (by omega)]
    · unfold level4
      rw [if_neg (by omega), if_neg (by omega), if_neg (by omega)]

/-- Witness for `risk_level_tables`: the boundary score 95 satisfies the
hypotheses, and there the two level functions agree with their tables. -/
theorem risk_level_tables_witness :
    (0 : ℤ) ≤ 95 ∧ (95 : ℤ) ≤ 100 ∧
      level5 95 = bandLookup band5Table "EXTREME" 95 ∧
      level4 95 = bandLookup band4Table "EXTREME" 95 := by
  refine ⟨by norm_num, by norm_num, ?_, ?_⟩
  · exact (risk_level_tables 95 (by norm_num) (by norm_num)).1
  · exact (risk_level_tables 95 (by norm_num) (by norm_num)).2.1

/-- Claim C10: the basic path's risk-factor extraction is independent of
the `rug_prob` argument it receives: for any two probability values the
returned list is identical (the function only reads the feature
mapping). -/
theorem risk_factors_ignore_prob (f : RawTokenFeatures) (p1 p2 : ℚ) :
    get_risk_factors f p1 = get_risk_factors f p2 := rfl

/-- Claim C7: ensemble confidence is the product 1.0 times 0.8 (holders
reported 0) times 0.8 (liquidity 0) times 0.9 (under 0.05 hours since
migration), then times 1.1 capped at 1.0 for extreme probabilities, then
rounded to 3 decimals; with holders = 0 and liquidity = 0 and
otherwise-typical input and no extreme-probability boost it is 0.64. -/
theorem confidence_formula (f : RawTokenFeatures) (p : ℚ) :
    calculate_confidence f p = confidenceSpec f p ∧
    calculate_confidence exLowQuality (1/2) = 64/100 := by
  constructor
  · simp only [calculate_confidence, confidenceSpec]
    split_ifs <;> congr 1 <;> ring_nf
  · norm_num [calculate_confidence, exLowQuality, pyRound3, pyRound]

/-- Claim C9: both risk-factor extractors evaluate a fixed, ordered rule
list — each true predicate contributing one templated message string —
and truncate the result to the first 5 matches in rule order; hence both
returned lists always have length at most 5. -/
theorem risk_factors_rule_list (f : RawTokenFeatures) (p : ℚ) :
    get_risk_factors f p = firstFiveRisks (riskRules f) ∧
    get_risk_factors_u f = firstFiveRisks (riskRulesU f) ∧
    (get_risk_factors f p).length ≤ 5 ∧
    (get_risk_factors_u f).length ≤ 5 := by
  refine ⟨?_, ?_, ?_, ?_⟩
  · unfold get_risk_factors firstFiveRisks riskRules
    cases mintNotRevoked f <;> cases freezeNotRevoked f <;> cases honeypotFlag f <;>
      cases highBuyTax f <;> cases highSellTax f <;> cases highConcentration f <;>
      cases manyJitoBundles f <;> cases lowLpBurn50 f <;> rfl
  · unfold get_risk_factors_u firstFiveRisks riskRulesU
    cases mintNotRevoked f <;> cases freezeNotRevoked f <;> cases honeypotFlag f <;>
      cases highTax f <;> cases highConcentration f <;> cases manyJitoBundles f <;>
      cases highDevBuy f <;> cases manyWalletClusters f <;> rfl
  · unfold get_risk_factors
    rw [List.length_take]
    exact min_le_left _ _
  · unfold get_risk_factors_u
    rw [List.length_take]
    exact min_le_left _ _

lemma fallbackRawScore_nonneg (f : RawTokenFeatures) : 0 ≤ fallbackRawScore f := by
  unfold fallbackRawScore
  exact le_max_left _ _

lemma fallbackRawScore_le_100 (f : RawTokenFeatures) : fallbackRawScore f ≤ 100 := by
  unfold fallbackRawScore
  exact max_le (by norm_num) (min_le_left _ _)

lemma fallback_prob_nonneg (f : RawTokenFeatures) : 0 ≤ (fallback_scoring f).2.2 := by
  show 0 ≤ 1 - (fallbackRawScore f : ℚ) / 100
  have h : (fallbackRawScore f : ℚ) ≤ 100 := by exact_mod_cast fallbackRawScore_le_100 f
  linarith

lemma fallback_prob_le_one (f : RawTokenFeatures) : (fallback_scoring f).2.2 ≤ 1 := by
  show 1 - (fallbackRawScore f : ℚ) / 100 ≤ 1
  have h : (0 : ℚ) ≤ (fallbackRawScore f : ℚ) := by
    exact_mod_cast fallbackRawScore_nonneg f
  have := div_nonneg h (by norm_num : (0:ℚ) ≤ 100)
  linarith

/-- Claim C1 counterexample: with registry state none (no artifact of any
tier), the ensemble public inference call `predict_full` returns the fixed
sentinel result (score 50, level UNKNOWN, probability 0.5), not a result
of the Rule-Based Fallback Scorer, which at this concrete input yields
score 60 and level HIGH. -/
theorem predict_full_none_sentinel :
    predict_full none exAuthoritiesSet = sentinelResult ∧
    (predict_full none exAuthoritiesSet).level = "UNKNOWN" ∧
    (fallback_scoring exAuthoritiesSet).2.1 = "HIGH" ∧
    (predict_full none exAuthoritiesSet).score ≠ (fallback_scoring exAuthoritiesSet).1 := by
  refine ⟨rfl, rfl, ?_, ?_⟩
  · norm_num [fallback_scoring, fallbackRawScore, mintNotRevoked, freezeNotRevoked,
      honeypotFlag, highTax, highConcentration, lowLpBurn90, exAuthoritiesSet,
      level4, max_def, min_def]
  · norm_num [predict_full, sentinelResult, fallback_scoring, fallbackRawScore,
      mintNotRevoked, freezeNotRevoked, honeypotFlag, highTax, highConcentration,
      lowLpBurn90, exAuthoritiesSet, max_def, min_def]

/-- Claim C1 amended: with no trained artifact of any tier, the basic
public call `predict_rug_score` returns exactly the Rule-Based Fallback
Scorer's result — a complete, well-formed triple (score in [0,100],
probability in [0,1], level one of the four bands) — while the ensemble
public call `predict_full` returns a complete fixed sentinel result
(score 50, level UNKNOWN) instead of delegating to the fallback scorer;
neither public call fails. -/
theorem degraded_inference_complete (f : RawTokenFeatures) :
    predict_rug_score none f = fallback_scoring f ∧
    predict_full none f = sentinelResult ∧
    0 ≤ (fallback_scoring f).1 ∧ (fallback_scoring f).1 ≤ 100 ∧
    0 ≤ (fallback_scoring f).2.2 ∧ (fallback_scoring f).2.2 ≤ 1 ∧
    ((fallback_scoring f).2.1 = "LOW" ∨ (fallback_scoring f).2.1 = "MEDIUM" ∨
      (fallback_scoring f).2.1 = "HIGH" ∨ (fallback_scoring f).2.1 = "EXTREME") := by
  refine ⟨rfl, rfl, fallbackRawScore_nonneg f, fallbackRawScore_le_100 f,
    fallback_prob_nonneg f, fallback_prob_le_one f, ?_⟩
  show level4 (fallbackRawScore f) = "LOW" ∨ level4 (fallbackRawScore f) = "MEDIUM" ∨
    level4 (fallbackRawScore f) = "HIGH" ∨ level4 (fallbackRawScore f) = "EXTREME"
  unfold level4
  split_ifs <;> simp

lemma pyInt_bounds (q : ℚ) (h0 : 0 ≤ q) (h1 : q ≤ 100) :
    0 ≤ pyInt q ∧ pyInt q ≤ 100 := by
  unfold pyInt
  rw [if_pos h0]
  constructor
  · exact Int.le_floor.mpr (by exact_mod_cast h0)
  · have h := Int.floor_le_floor (α := ℚ) h1
    simpa using h

lemma pyRound_intCast (n : ℤ) : pyRound (n : ℚ) = n := by
  norm_num [pyRound, Int.floor_intCast]

/-- A constant-probability stand-in for `predict_proba` (an ensemble whose
combined prediction is the probability `p`, reporting `tag` as the model
used). -/
def constProba (p : ℚ) (tag : String) : RawTokenFeatures → ℚ × String :=
  fun _ => (p, tag)

/-- A constant-probability stand-in for the basic model's
`predict_proba(df)[0][1]`. -/
def constModel (p : ℚ) : List ℚ → ℚ :=
  fun _ => p

/-- Claim C2 counterexample: on the ensemble path with rug probability 1/8
(inside [0,1]) the returned score is the truncation 87 of 87.5, while
round((1 - 1/8) * 100) = round(87.5) = 88 — the returned score is not
round((1 - rugProbability) * 100). -/
theorem score_not_rounded :
    (0 : ℚ) ≤ 1/8 ∧ (1/8 : ℚ) ≤ 1 ∧
    (predict_full (some (constProba (1/8) "Stacking Ensemble (F1: 0.968+)"))
        exEmpty).rug_probability = 1/8 ∧
    (predict_full (some (constProba (1/8) "Stacking Ensemble (F1: 0.968+)"))
        exEmpty).score = 87 ∧
    pyRound ((1 - 1/8) * 100) = 88 ∧
    (predict_full (some (constProba (1/8) "Stacking Ensemble (F1: 0.968+)"))
        exEmpty).score ≠
      pyRound ((1 - (predict_full (some (constProba (1/8) "Stacking Ensemble (F1: 0.968+)"))
        exEmpty).rug_probability) * 100) := by
  refine ⟨by norm_num, by norm_num, rfl, ?_, ?_, ?_⟩
  · show pyInt ((1 - (1:ℚ)/8) * 100) = 87
    norm_num [pyInt]
  · norm_num [pyRound]
  · show pyInt ((1 - (1:ℚ)/8) * 100) ≠ pyRound ((1 - (1:ℚ)/8) * 100)
    norm_num [pyInt, pyRound]

/-- Claim C2 amended: on the model-backed scoring paths the returned score
is int((1 - p) * 100), Python's truncation toward zero, not the rounding
of (1 - p) * 100; for p in [0,1] the score lies in [0,100] and the result
carries p unchanged; on the fallback path score and rugProbability lie in
range and do satisfy score = round((1 - rugProbability) * 100) exactly. -/
theorem score_truncation_bounds (pp : RawTokenFeatures → ℚ × String)
    (m : List ℚ → ℚ) (f : RawTokenFeatures)
    (h0 : 0 ≤ (pp f).1) (h1 : (pp f).1 ≤ 1)
    (h0m : 0 ≤ m (engineer_features_for_prediction f))
    (h1m : m (engineer_features_for_prediction f) ≤ 1) :
    (predict_full (some pp) f).score = pyInt ((1 - (pp f).1) * 100) ∧
    (predict_full (some pp) f).rug_probability = (pp f).1 ∧
    0 ≤ (predict_full (some pp) f).score ∧
    (predict_full (some pp) f).score ≤ 100 ∧
    (predict_rug_score (some m) f).1 =
      pyInt ((1 - m (engineer_features_for_prediction f)) * 100) ∧
    0 ≤ (predict_rug_score (some m) f).1 ∧
    (predict_rug_score (some m) f).1 ≤ 100 ∧
    0 ≤ (fallback_scoring f).2.2 ∧ (fallback_scoring f).2.2 ≤ 1 ∧
    (fallback_scoring f).1 = pyRound ((1 - (fallback_scoring f).2.2) * 100) := by
  have hb1 := pyInt_bounds ((1 - (pp f).1) * 100) (by nlinarith) (by nlinarith)
  have hb2 := pyInt_bounds ((1 - m (engineer_features_for_prediction f)) * 100)
    (by nlinarith) (by nlinarith)
  refine ⟨rfl, rfl, hb1.1, hb1.2, rfl, hb2.1, hb2.2,
    fallback_prob_nonneg f, fallback_prob_le_one f, ?_⟩
  show fallbackRawScore f = pyRound ((1 - (1 - (fallbackRawScore f : ℚ) / 100)) * 100)
  have h : (1 - (1 - (fallbackRawScore f : ℚ) / 100)) * 100 =
      ((fallbackRawScore f : ℤ) : ℚ) := by
    ring
  rw [h, pyRound_intCast]

/-- Witness for `score_truncation_bounds` at probability 1/2 on the empty
input: both model-backed paths return score 50. -/
theorem score_truncation_bounds_witness :
    (predict_full (some (constProba (1/2) "Stacking Ensemble (F1: 0.968+)"))
        exEmpty).score = 50 ∧
    (predict_rug_score (some (constModel (1/2))) exEmpty).1 = 50 := by
  have h := score_truncation_bounds
    (constProba (1/2) "Stacking Ensemble (F1: 0.968+)") (constModel (1/2)) exEmpty
    (by norm_num [constProba]) (by norm_num [constProba])
    (by norm_num [constModel]) (by norm_num [constModel])
  constructor
  · rw [h.1]
    norm_num [constProba, pyInt]
  · rw [h.2.2.2.2.1]
    norm_num [constModel, pyInt]

/-- A raw input carrying both flag fields but total_supply = -1, so the
serving-time denominator total_supply + 1 is zero. -/
def exZeroDenom : RawTokenFeatures :=
  { honeypot := some false, jito_bundle := some false,
    lp_burned := some 1, total_supply := some (-1) }

/-- Claim C4 counterexample: the two call sites do not produce identical
vectors for every raw token-feature input.  On the all-defaults input (no
honeypot and no jito_bundle column) the training-time transform fails
with the AttributeError of `.astype(int)` on the scalar default while the
serving-time transform returns a 20-entry vector; and on an input with
both flags present but total_supply = -1 the serving-time transform
raises ZeroDivisionError while the training-time transform returns a
vector (the pandas inf sanitised to 0). -/
theorem transforms_diverge_on_missing_flags :
    engineer_features exEmpty ≠
      Except.ok (engineer_features_for_prediction exEmpty) ∧
    engineer_features exEmpty =
      Except.error "AttributeError: astype on scalar default of honeypot" ∧
    (engineer_features_for_prediction exEmpty).length = 20 ∧
    engineer_features_serving exZeroDenom =
      Except.error "ZeroDivisionError: division by zero" ∧
    engineer_features exZeroDenom =
      Except.ok (engineer_features_for_prediction exZeroDenom) ∧
    engineer_features exZeroDenom ≠ engineer_features_serving exZeroDenom := by
  have hserve : engineer_features_serving exZeroDenom =
      Except.error "ZeroDivisionError: division by zero" := by
    norm_num [engineer_features_serving, exZeroDenom]
  refine ⟨?_, rfl, rfl, hserve, rfl, ?_⟩
  · intro h
    rw [show engineer_features exEmpty =
        Except.error "AttributeError: astype on scalar default of honeypot" from rfl] at h
    exact Except.noConfusion h
  · intro h
    rw [show engineer_features exZeroDenom =
        Except.ok (engineer_features_for_prediction exZeroDenom) from rfl, hserve] at h
    exact Except.noConfusion h

/-- Claim C4 amended: for every raw input that provides the honeypot and
jito_bundle fields (so the training-time `.astype(int)` operates on a real
column) and whose three +1-protected serving denominators are nonzero (so
no plain-Python serving division raises), the training-time transform
over the one-row dataset and the serving-time transform produce the
identical 20-dimension vector in the same column order; both transforms
are deterministic functions of the input. -/
theorem transforms_agree (f : RawTokenFeatures)
    (hhp : f.honeypot.isSome = true) (hjb : f.jito_bundle.isSome = true)
    (hts : f.total_supply.getD 1 + 1 ≠ 0) (hlq : f.liquidity.getD 1 + 1 ≠ 0)
    (hvm : f.vol_1m.getD 1 + 1 ≠ 0) :
    engineer_features f = Except.ok (engineer_features_for_prediction f) ∧
    engineer_features_serving f = Except.ok (engineer_features_for_prediction f) ∧
    engineer_features f = engineer_features_serving f ∧
    (engineer_features_for_prediction f).length = 20 ∧
    engineer_features f = engineer_features f ∧
    engineer_features_serving f = engineer_features_serving f := by
  have h1 : ¬(f.honeypot.isNone = true) := by
    rw [Option.isNone_iff_eq_none]
    intro hn
    rw [hn] at hhp
    simp at hhp
  have h2 : ¬(f.jito_bundle.isNone = true) := by
    rw [Option.isNone_iff_eq_none]
    intro hn
    rw [hn] at hjb
    simp at hjb
  have htrain : engineer_features f = Except.ok (engineer_features_for_prediction f) := by
    unfold engineer_features
    rw [if_neg h1, if_neg h2]
    rfl
  have hserve : engineer_features_serving f =
      Except.ok (engineer_features_for_prediction f) := by
    unfold engineer_features_serving
    rw [if_neg hts, if_neg hlq, if_neg hvm]
  exact ⟨htrain, hserve, htrain.trans hserve.symm, rfl, rfl, rfl⟩

/-- A raw input that provides both boolean flag fields (and leaves the
denominator fields at their defaults, which are nonzero). -/
def exFlagsPresent : RawTokenFeatures :=
  { honeypot := some false, jito_bundle := some false }

/-- Witness for `transforms_agree`: on a concrete input carrying both flag
fields and with nonzero serving denominators, the training-time and
serving-time transforms coincide. -/
theorem transforms_agree_witness :
    Option.isSome exFlagsPresent.honeypot = true ∧
    Option.isSome exFlagsPresent.jito_bundle = true ∧
    engineer_features exFlagsPresent =
      Except.ok (engineer_features_for_prediction exFlagsPresent) ∧
    engineer_features_serving exFlagsPresent =
      Except.ok (engineer_features_for_prediction exFlagsPresent) := by
  have h := transforms_agree exFlagsPresent rfl rfl
    (by norm_num [exFlagsPresent]) (by norm_num [exFlagsPresent])
    (by norm_num [exFlagsPresent])
  exact ⟨rfl, rfl, h.1, h.2.1⟩

/-- Claim C3 (training-side defect): in the 5-fold loop the sklearn-style
base learners are single objects refit in place each fold and appended to
the fold-model lists by reference, so the persisted list for such a
learner type holds five references to one object carrying the last fold's
fit — not five distinct per-fold trained instances — while the per-fold
neural nets (constructed fresh each fold) are the five distinct per-fold
fits; consequently the inference-time fold-average for such a type
collapses to the last-fold model's single prediction. -/
theorem fold_models_aliased :
    persistedModels (runTrainingLoop demoFoldTrains)
        (runTrainingLoop demoFoldTrains).xgbRefs =
      List.replicate 5 [0, 1, 2, 3] ∧
    persistedModels (runTrainingLoop demoFoldTrains)
        (runTrainingLoop demoFoldTrains).nnRefs = demoFoldTrains ∧
    persistedModels (runTrainingLoop demoFoldTrains)
        (runTrainingLoop demoFoldTrains).xgbRefs ≠ demoFoldTrains ∧
    ∀ basePred : List ℕ → ℚ,
      mean ((persistedModels (runTrainingLoop demoFoldTrains)
          (runTrainingLoop demoFoldTrains).xgbRefs).map basePred) =
        basePred [0, 1, 2, 3] := by
  refine ⟨by decide, by decide, by decide, ?_⟩
  intro bp
  show mean [bp [0, 1, 2, 3], bp [0, 1, 2, 3], bp [0, 1, 2, 3],
    bp [0, 1, 2, 3], bp [0, 1, 2, 3]] = bp [0, 1, 2, 3]
  simp only [mean, List.sum_cons, List.sum_nil, List.length_cons, List.length_nil]
  push_cast
  ring

lemma mem_valIdx {n k : ℕ} {y : Fin n → Bool} {f : ℕ} {i : Fin n} :
    i ∈ valIdx n k y f ↔ classRank y i % k = f := by
  simp [valIdx, List.mem_filter, List.mem_finRange]

lemma mem_trainIdx {n k : ℕ} {y : Fin n → Bool} {f : ℕ} {i : Fin n} :
    i ∈ trainIdx n k y f ↔ classRank y i % k ≠ f := by
  simp [trainIdx, List.mem_filter, List.mem_finRange]

/-- Claim C6: in the 5-fold stacked-ensemble training, every dataset row
index lies in exactly one fold's validation index set, and the
meta-feature matrix cell of any row and base-learner column equals the
probability predicted by the learner fitted on that unique fold's
training rows — rows the fold's training set excludes (the out-of-fold
invariant: each cell is written exactly once, by a learner that never saw
that row). -/
theorem out_of_fold_invariant (n : ℕ) (y : Fin n → Bool)
    (pred : Fin 4 → List (Fin n) → Fin n → ℚ) (i : Fin n) (j : Fin 4) :
    (stratifiedFolds n 5 y).countP (fun fd => decide (i ∈ fd.val)) = 1 ∧
    ∃ fd ∈ stratifiedFolds n 5 y, i ∈ fd.val ∧ i ∉ fd.train ∧
      buildMetaFeatures (stratifiedFolds n 5 y) pred i j = pred j fd.train i := by
  have hr : classRank y i % 5 < 5 := Nat.mod_lt _ (by norm_num)
  constructor
  · show List.countP (fun fd => decide (i ∈ fd.val))
        ((List.range 5).map (fun f => (⟨trainIdx n 5 y f, valIdx n 5 y f⟩ : Fold n))) = 1
    rw [show List.range 5 = [0, 1, 2, 3, 4] from rfl]
    simp only [List.map_cons, List.map_nil, List.countP_cons, List.countP_nil,
      decide_eq_true_eq, mem_valIdx]
    generalize hg : classRank y i % 5 = r at hr
    interval_cases r <;> simp [mem_valIdx]
  · refine ⟨⟨trainIdx n 5 y (classRank y i % 5), valIdx n 5 y (classRank y i % 5)⟩,
      ?_, ?_, ?_, ?_⟩
    · show _ ∈ (List.range 5).map (fun f => (⟨trainIdx n 5 y f, valIdx n 5 y f⟩ : Fold n))
      rw [List.mem_map]
      exact ⟨classRank y i % 5, by simpa [List.mem_range] using hr, rfl⟩
    · exact mem_valIdx.mpr rfl
    · intro hcon
      exact (mem_trainIdx.mp hcon) rfl
    · show List.foldl (fun M fd => fun i j => if i ∈ fd.val then pred j fd.train i else M i j)
          (fun _ _ => 0)
          ((List.range 5).map (fun f => (⟨trainIdx n 5 y f, valIdx n 5 y f⟩ : Fold n))) i j =
        pred j (trainIdx n 5 y (classRank y i % 5)) i
      rw [show List.range 5 = [0, 1, 2, 3, 4] from rfl]
      simp only [List.map_cons, List.map_nil, List.foldl_cons, List.foldl_nil, mem_valIdx]
      generalize hg : classRank y i % 5 = r at hr
      interval_cases r <;> simp [mem_valIdx]
